import Mathlib

/-!
Verification of the DICOM header repair pipeline
(`Notebooks/DICOM Issue analysis.ipynb`).

A pydicom `Dataset` is modelled as an association list from element keyword
to string value.  Element mutation in pydicom (`data_element(name).value = v`)
only changes an element that is already present, which is what `Dataset.set`
does.  The `status_output` callback is modelled by returning the list of
messages each function emits.  Python exceptions that the source lets escape
(`TypeError` from a membership test on `None`, `AttributeError` from
`None.value`, I/O errors from `pydicom.dcmread`) are modelled with `Except`.
-/

/-- Characterwise prefix test, modelling Python `str.startswith`. -/
def isPrefixList : List Char → List Char → Bool
  | [], _ => true
  | _ :: _, [] => false
  | a :: as, b :: bs => a = b && isPrefixList as bs

/-- Characterwise infix test, modelling Python `pat in s` on strings. -/
def isSubList : List Char → List Char → Bool
  | pat, [] => pat.isEmpty
  | pat, c :: rest => isPrefixList pat (c :: rest) || isSubList pat rest

/-- Python `s.startswith pre`. -/
def strStartsWith (s pre : String) : Bool := isPrefixList pre.toList s.toList

/-- Python `pat in s` (substring containment, case sensitive). -/
def containsSub (s pat : String) : Bool := isSubList pat.toList s.toList

/-- A pydicom dataset: an association list of (element keyword, value). -/
structure Dataset where
  elements : List (String × String)
deriving DecidableEq, Repr

/-- Element lookup in an association list, first match wins. -/
def getElems : List (String × String) → String → Option String
  | [], _ => none
  | (k, v) :: rest, name => if k = name then some v else getElems rest name

/-- Look up the value of a named data element (pydicom
`dataset.data_element(name).value` when present, `None` when absent). -/
def Dataset.get (d : Dataset) (name : String) : Option String :=
  getElems d.elements name

/-- Python membership test `name in dataset`. -/
def Dataset.hasElem (d : Dataset) (name : String) : Bool := (d.get name).isSome

/-- Value assignment in an association list: every entry under the given
key is updated, entries under other keys are untouched. -/
def setElems : List (String × String) → String → String → List (String × String)
  | [], _, _ => []
  | (k, v) :: rest, name, newVal =>
    if k = name then (k, newVal) :: setElems rest name newVal
    else (k, v) :: setElems rest name newVal

/-- Assign a new value to an existing data element
(`dataset.data_element(name).value = newVal`); an absent element is
unaffected, mirroring in-place mutation of the found element. -/
def Dataset.set (d : Dataset) (name newVal : String) : Dataset :=
  ⟨setElems d.elements name newVal⟩

/-- Python truthiness of a pydicom dataset (`if dataset:`): a dataset is
truthy iff it holds at least one data element. -/
def Dataset.truthy (d : Dataset) : Bool := !d.elements.isEmpty

theorem getElems_setElems (l : List (String × String)) (name newVal f : String) :
    getElems (setElems l name newVal) f =
      if f = name then (getElems l name).map (fun _ => newVal)
      else getElems l f := by
  induction l with
  | nil => simp [setElems, getElems]
  | cons p rest ih =>
    obtain ⟨k, v⟩ := p
    by_cases hk : k = name
    · subst hk
      by_cases hf : f = k
      · subst hf
        simp [setElems, getElems]
      · have hf' : ¬ k = f := fun h => hf h.symm
        simp [setElems, getElems, hf, hf', ih]
    · by_cases hf : k = f
      · subst hf
        have hk' : ¬ k = name := hk
        simp [setElems, getElems, hk', ih]
      · simp [setElems, getElems, hk, hf, ih]

/-- `(d.set name v).get f`: reading after an assignment. -/
theorem Dataset.get_set (d : Dataset) (name newVal f : String) :
    (d.set name newVal).get f =
      if f = name then (d.get name).map (fun _ => newVal) else d.get f :=
  getElems_setElems d.elements name newVal f

/-- Assignment never changes which elements are present. -/
theorem Dataset.hasElem_set (d : Dataset) (name newVal f : String) :
    (d.set name newVal).hasElem f = d.hasElem f := by
  unfold Dataset.hasElem
  rw [Dataset.get_set]
  by_cases hf : f = name
  · simp [hf]
  · simp [hf]

/-! ### Repair rule: `fix_invalid_characters` -/

/-- The message emitted when an invalid character is repaired
(`'Invalid Character found in element {name}.' + '\tReplaced with blank string.'`). -/
def invalidCharMessage (name : String) : String :=
  "Invalid Character found in element " ++ name ++ ".\tReplaced with blank string."

/-- One iteration of the loop body of `fix_invalid_characters`:
`if element_name in dataset: ... if value.startswith('/'): log; value = ''`. -/
def fixOneElement (d : Dataset) (name : String) : Dataset × List String :=
  match d.get name with
  | some v =>
    if strStartsWith v "/" then (d.set name "", [invalidCharMessage name])
    else (d, [])
  | none => (d, [])

/-- `fix_invalid_characters`: clears `BodyPartExamined` and `OtherPatientIDs`
when their value starts with `/`; always returns the dataset. -/
def fix_invalid_characters (d : Dataset) : Option Dataset × List String :=
  let r1 := fixOneElement d "BodyPartExamined"
  let r2 := fixOneElement r1.1 "OtherPatientIDs"
  (some r2.1, r1.2 ++ r2.2)

/-! ### Repair rule: `fix_incorrect_modality` -/

/-- The rejection message for a dataset with no `Modality` element. -/
def noModalityMessage : String := "Modality element not found. File not used."

/-- The modality-change message
(`'Incorrect Modality found.' + '\tModality changed from "{old}" to "{new}"'`). -/
def modalityChangeMessage (oldModality newModality : String) : String :=
  "Incorrect Modality found.\tModality changed from \"" ++ oldModality ++
    "\" to \"" ++ newModality ++ "\""

/-- `fix_incorrect_modality`: discards when `Modality` is absent; otherwise
rewrites `Modality` to `CT` when `KVP` is present and the (original) modality
string does not contain `CT`, then to `PT` when
`RadiopharmaceuticalInformationSequence` is present and the *original*
modality string (the `modality` local read once at the top) does not
contain `PT`. -/
def fix_incorrect_modality (d : Dataset) : Option Dataset × List String :=
  match d.get "Modality" with
  | none => (none, [noModalityMessage])
  | some modality =>
    let r1 : Dataset × List String :=
      if d.hasElem "KVP" then
        if !containsSub modality "CT" then
          (d.set "Modality" "CT", [modalityChangeMessage modality "CT"])
        else (d, [])
      else (d, [])
    let r2 : Dataset × List String :=
      if r1.1.hasElem "RadiopharmaceuticalInformationSequence" then
        if !containsSub modality "PT" then
          (r1.1.set "Modality" "PT", r1.2 ++ [modalityChangeMessage modality "PT"])
        else r1
      else r1
    (some r2.1, r2.2)

/-! ### Repair rule: `fix_incorrect_address` -/

/-- The address-repair message (`'Mismatched Institution Addresses Suspected.'
+ '\tAddress: "{address}"' + ' Replaced with blank string.'`). -/
def addressMessage (address : String) : String :=
  "Mismatched Institution Addresses Suspected.\tAddress: \"" ++ address ++
    "\" Replaced with blank string."

/-- `fix_incorrect_address`: blanks `InstitutionAddress` when its value
contains the (case-sensitive) substring `Mississauga`; always returns the
dataset. -/
def fix_incorrect_address (d : Dataset) : Option Dataset × List String :=
  match d.get "InstitutionAddress" with
  | some address =>
    if containsSub address "Mississauga" then
      (some (d.set "InstitutionAddress" ""), [addressMessage address])
    else (some d, [])
  | none => (some d, [])

/-! ### Loader, scanner, output writer, pipeline -/

/-- Python exceptions that escape the modelled code. -/
inductive PyError where
  /-- e.g. a membership test `name in None`. -/
  | typeError
  /-- e.g. `None.value` after `data_element` returned `None`. -/
  | attributeError
  /-- an I/O failure other than `InvalidDicomError`, raised by `dcmread`. -/
  | ioError (msg : String)
deriving DecidableEq, Repr

/-- The outcome of `pydicom.dcmread` on one file's bytes. -/
inductive LoadResult where
  /-- the bytes decode to a dataset. -/
  | ok (d : Dataset)
  /-- `pydicom.errors.InvalidDicomError` is raised. -/
  | invalidDicom
  /-- some other I/O error (permission, missing file) is raised. -/
  | ioError (msg : String)
deriving DecidableEq, Repr

/-- One filesystem entry under the scanned root: its relative path as a
list of components (last component is the entry's name) and, for files,
what `dcmread` would return on it. -/
structure Entry where
  relPath : List String
  isFile : Bool
  load : LoadResult
deriving DecidableEq, Repr

/-- `dicom_file.name`: the last path component. -/
def Entry.name (e : Entry) : String := (e.relPath.getLast?).getD ""

/-- `load_header`: returns the dataset, or `none` with one skip message on
`InvalidDicomError`; any other error from `dcmread` propagates. -/
def load_header (fileName : String) (result : LoadResult) :
    Except PyError (Option Dataset × List String) :=
  match result with
  | .ok d => .ok (some d, [])
  | .invalidDicom =>
    .ok (none, [fileName ++ " did not contain valid DICOM data.  Skipped."])
  | .ioError m => .error (.ioError m)

/-- Whether a relative path matches the glob pattern used by
`get_dicom_images`: `'**/*'` (any entry at depth ≥ 1) when
`include_subdirectories` is true, `'*.*'` (a top-level entry whose name
contains a period) when it is false. -/
def globMatches (includeSubdirectories : Bool) (relPath : List String) : Bool :=
  if includeSubdirectories then decide (1 ≤ relPath.length)
  else decide (relPath.length = 1) && ((relPath.headD "").toList.contains '.')

/-- What the `get_dicom_images` generator does for one filesystem entry:
the datasets it yields, the messages it emits, and the files it passes to
`load_header`. -/
structure ScanStep where
  yielded : List Dataset
  log : List String
  loaderCalls : List String
deriving DecidableEq, Repr

/-- The body of the `get_dicom_images` loop for one entry: entries matching
the glob that are files get a `Checking file` message and a `load_header`
call; the result is yielded only if it is truthy. -/
def scanOne (includeSubdirectories : Bool) (e : Entry) :
    Except PyError ScanStep :=
  if globMatches includeSubdirectories e.relPath && e.isFile then
    match load_header e.name e.load with
    | .error err => .error err
    | .ok (some d, loadMsgs) =>
      if d.truthy then
        .ok ⟨[d], ("Checking file " ++ e.name) :: loadMsgs, [e.name]⟩
      else
        .ok ⟨[], ("Checking file " ++ e.name) :: loadMsgs, [e.name]⟩
    | .ok (none, loadMsgs) =>
      .ok ⟨[], ("Checking file " ++ e.name) :: loadMsgs, [e.name]⟩
  else .ok ⟨[], [], []⟩

/-- `get_dicom_images` over a whole directory listing: concatenates the
per-entry scan steps, propagating the first error. -/
def get_dicom_images (includeSubdirectories : Bool) :
    List Entry → Except PyError ScanStep
  | [] => .ok ⟨[], [], []⟩
  | e :: rest =>
    match scanOne includeSubdirectories e with
    | .error err => .error err
    | .ok step =>
      match get_dicom_images includeSubdirectories rest with
      | .error err => .error err
      | .ok steps =>
        .ok ⟨step.yielded ++ steps.yielded, step.log ++ steps.log,
             step.loaderCalls ++ steps.loaderCalls⟩

/-- `build_dicom_file_name`: `modality ++ instance_uid ++ '.dcm'`.  Returns
`none` when either element is absent, in which case the Python
`dataset.data_element(name).value` raises `AttributeError`
(`data_element` returns `None` for a missing keyword). -/
def build_dicom_file_name (d : Dataset) : Option String :=
  match d.get "Modality", d.get "SOPInstanceUID" with
  | some modality, some instanceUid => some (modality ++ instanceUid ++ ".dcm")
  | _, _ => none

/-- One invocation of the output writer: the filename written and the
dataset content persisted there. -/
structure SaveEvent where
  fileName : String
  content : Dataset
deriving DecidableEq, Repr

/-- `save_dicom_dataset`: derives the filename from the dataset and writes
the dataset there; raises when the filename cannot be built. -/
def save_dicom_dataset (d : Dataset) : Except PyError SaveEvent :=
  match build_dicom_file_name d with
  | some fileName => .ok ⟨fileName, d⟩
  | none => .error .attributeError

/-- The type of one repair method as stored in `repair_methods`. -/
def RepairMethod : Type := Dataset → Option Dataset × List String

/-- The inner loop of `perform_repairs` on one scanned value:
`for repair_method in repair_methods: dataset = repair_method(dataset, ...);
if dataset: save_dicom_dataset(dataset, output_path)`.
The loop variable `dataset` is an `Option Dataset` because a repair method
may return `None`; each of the three repair methods begins with a
membership test on its argument, which raises `TypeError` when the
argument is `None`.  Note the save is inside the method loop and there is
no early exit after a `None` result. -/
def repair_inner : List RepairMethod → Option Dataset →
    Except PyError (Option Dataset × List String × List SaveEvent)
  | [], d => .ok (d, [], [])
  | m :: rest, d =>
    match d with
    | none => .error .typeError
    | some ds =>
      let r := m ds
      let saves : Except PyError (List SaveEvent) :=
        match r.1 with
        | some ds1 =>
          if ds1.truthy then
            match save_dicom_dataset ds1 with
            | .ok ev => .ok [ev]
            | .error e => .error e
          else .ok []
        | none => .ok []
      match saves with
      | .error e => .error e
      | .ok evs =>
        match repair_inner rest r.1 with
        | .error e => .error e
        | .ok (dFinal, msgs2, evs2) => .ok (dFinal, r.2 ++ msgs2, evs ++ evs2)

/-- `perform_repairs`: drives `get_dicom_images` (with its default
`include_subdirectories=True`) over the directory listing and runs the
repair loop on every yielded dataset. -/
def perform_repairs (entries : List Entry) (methods : List RepairMethod) :
    Except PyError (List String × List SaveEvent) :=
  match entries with
  | [] => .ok ([], [])
  | e :: rest =>
    match scanOne true e with
    | .error err => .error err
    | .ok step =>
      match repairYielded methods step.yielded with
      | .error err => .error err
      | .ok (msgs, evs) =>
        match perform_repairs rest methods with
        | .error err => .error err
        | .ok (msgs2, evs2) => .ok (step.log ++ msgs ++ msgs2, evs ++ evs2)
where
  /-- Run the repair loop on each dataset yielded for one entry. -/
  repairYielded (methods : List RepairMethod) :
      List Dataset → Except PyError (List String × List SaveEvent)
    | [] => .ok ([], [])
    | d :: ds =>
      match repair_inner methods (some d) with
      | .error err => .error err
      | .ok (_, msgs, evs) =>
        match repairYielded methods ds with
        | .error err => .error err
        | .ok (msgs2, evs2) => .ok (msgs ++ msgs2, evs ++ evs2)

/-- The repair-method list built in the notebook. -/
def repair_methods : List RepairMethod :=
  [fix_invalid_characters, fix_incorrect_modality, fix_incorrect_address]

/-- The output directory's contents: a map from filename to file content. -/
def Store : Type := String → Option Dataset

/-- Apply a sequence of output-writer invocations to an output directory,
later writes to the same filename overwriting earlier ones. -/
def applyWrites : List SaveEvent → Store → Store
  | [], σ => σ
  | ev :: ws, σ =>
    applyWrites ws (fun n => if n = ev.fileName then some ev.content else σ n)

/-- The last write to a given filename in a write sequence. -/
def lastWrite : List SaveEvent → String → Option Dataset
  | [], _ => none
  | ev :: ws, n =>
    match lastWrite ws n with
    | some c => some c
    | none => if n = ev.fileName then some ev.content else none

theorem applyWrites_eq_lastWrite (ws : List SaveEvent) (σ : Store) (n : String) :
    applyWrites ws σ n =
      match lastWrite ws n with
      | some c => some c
      | none => σ n := by
  induction ws generalizing σ with
  | nil => simp [applyWrites, lastWrite]
  | cons ev ws ih =>
    simp only [applyWrites, lastWrite, ih]
    cases lastWrite ws n with
    | some c => rfl
    | none => by_cases h : n = ev.fileName <;> simp [h]

/-! ### Helper lemmas about `fixOneElement` -/

theorem fixOneElement_get_self (d : Dataset) (n : String) :
    (fixOneElement d n).1.get n =
      (d.get n).map (fun v => if strStartsWith v "/" then "" else v) := by
  unfold fixOneElement
  rcases h : d.get n with _ | v
  · simp [h]
  · by_cases hs : strStartsWith v "/"
    · simp [h, hs, Dataset.get_set]
    · simp [h, hs]

theorem fixOneElement_get_ne (d : Dataset) (n f : String) (hf : f ≠ n) :
    (fixOneElement d n).1.get f = d.get f := by
  unfold fixOneElement
  rcases h : d.get n with _ | v
  · simp
  · by_cases hs : strStartsWith v "/"
    · simp [hs, Dataset.get_set, hf]
    · simp [hs]

theorem fixOneElement_msgs (d : Dataset) (n : String) :
    (fixOneElement d n).2 =
      match d.get n with
      | some v => if strStartsWith v "/" then [invalidCharMessage n] else []
      | none => [] := by
  unfold fixOneElement
  rcases h : d.get n with _ | v
  · simp
  · by_cases hs : strStartsWith v "/" <;> simp [hs]

/-! ### Claim C1 -/

/-- C1: the claim says a discard stops a dataset's processing immediately
(remaining rules and the writer skipped, pipeline moves on).  The code does
neither: the save is inside the rule loop and there is no early exit, so
with the notebook's `repair_methods` a non-empty dataset lacking `Modality`
already crashes with `AttributeError` when the misplaced save after the
first rule tries to build a filename, and an empty dataset, discarded by
`fix_incorrect_modality`, is still passed (as `None`) to
`fix_incorrect_address`, whose membership test raises `TypeError`.  Either
way the run aborts instead of proceeding to the next dataset. -/
theorem c1_discard_crashes_instead_of_skipping :
    repair_inner repair_methods (some ⟨[("KVP", "120")]⟩) =
      .error .attributeError ∧
    repair_inner repair_methods (some ⟨[]⟩) = .error .typeError := by
  constructor <;> rfl

/-! ### Claim C2 -/

/-- C2: the claim says the writer runs exactly once per surviving dataset,
with the final dataset only.  Because the save sits inside the rule loop,
a dataset that survives all three rules is written three times, the first
time in its intermediate, partially-repaired state: for an input with
`Modality = "NM"` and `KVP` present, the first write uses filename
`NM1.dcm` built from the not-yet-repaired modality, and the later writes
use `CT1.dcm`, so two distinct filenames are emitted for one instance. -/
theorem c2_writer_invoked_per_rule_with_intermediate_state :
    repair_inner repair_methods
        (some ⟨[("Modality", "NM"), ("SOPInstanceUID", "1"), ("KVP", "120")]⟩) =
      .ok (some ⟨[("Modality", "CT"), ("SOPInstanceUID", "1"), ("KVP", "120")]⟩,
        [modalityChangeMessage "NM" "CT"],
        [⟨"NM1.dcm", ⟨[("Modality", "NM"), ("SOPInstanceUID", "1"), ("KVP", "120")]⟩⟩,
         ⟨"CT1.dcm", ⟨[("Modality", "CT"), ("SOPInstanceUID", "1"), ("KVP", "120")]⟩⟩,
         ⟨"CT1.dcm", ⟨[("Modality", "CT"), ("SOPInstanceUID", "1"), ("KVP", "120")]⟩⟩]) ∧
    ("NM1.dcm" : String) ≠ "CT1.dcm" := by
  refine ⟨by rfl, by decide⟩

/-! ### Claim C3 -/

/-- C3 counterexample: with `Modality = "PT"`, `KVP` present and the
radiopharmaceutical sequence present, the rule leaves the classification as
`"CT"`, not `"PT"`: the CT check rewrites it to `CT`, and the PET check
tests the stale `modality` local (still `"PT"`), so it never fires. -/
theorem c3_counterexample_both_indicators_ends_ct :
    (Option.bind
      (fix_incorrect_modality ⟨[("Modality", "PT"), ("KVP", "120"),
        ("RadiopharmaceuticalInformationSequence", "present")]⟩).1
      (fun d => d.get "Modality")) = some "CT" ∧
    (some "CT" : Option String) ≠ some "PT" := by
  constructor <;> decide

/-- C3 amended: when `Modality`, `KVP` and the radiopharmaceutical sequence
are all present and the original modality value does not contain the
substring `PT`, the final classification is exactly `PT` (the PET write,
executing second, wins), and when both checks fire (original modality
contains neither `CT` nor `PT`) both corrections are logged. -/
theorem c3_both_indicators_pt_wins (d : Dataset) (m : String)
    (hm : d.get "Modality" = some m)
    (hkvp : d.hasElem "KVP" = true)
    (hris : d.hasElem "RadiopharmaceuticalInformationSequence" = true)
    (hnpt : containsSub m "PT" = false) :
    ∃ d', (fix_incorrect_modality d).1 = some d' ∧
      d'.get "Modality" = some "PT" ∧
      (fix_incorrect_modality d).2 =
        (if containsSub m "CT" then [] else [modalityChangeMessage m "CT"]) ++
          [modalityChangeMessage m "PT"] := by
  by_cases hct : containsSub m "CT"
  · refine ⟨d.set "Modality" "PT", ?_, ?_, ?_⟩ <;>
      simp [fix_incorrect_modality, hm, hkvp, hris, hnpt, hct,
        Dataset.get_set, Dataset.hasElem_set]
  · refine ⟨(d.set "Modality" "CT").set "Modality" "PT", ?_, ?_, ?_⟩ <;>
      simp [fix_incorrect_modality, hm, hkvp, hris, hnpt, hct,
        Dataset.get_set, Dataset.hasElem_set]

/-- Instance of `c3_both_indicators_pt_wins` on a concrete dataset whose
original modality is `"OT"` (both checks fire). -/
theorem c3_both_indicators_pt_wins_witness :
    ∃ d', (fix_incorrect_modality ⟨[("Modality", "OT"), ("KVP", "120"),
        ("RadiopharmaceuticalInformationSequence", "present")]⟩).1 = some d' ∧
      d'.get "Modality" = some "PT" ∧
      (fix_incorrect_modality ⟨[("Modality", "OT"), ("KVP", "120"),
        ("RadiopharmaceuticalInformationSequence", "present")]⟩).2 =
        (if containsSub "OT" "CT" then [] else [modalityChangeMessage "OT" "CT"]) ++
          [modalityChangeMessage "OT" "PT"] :=
  c3_both_indicators_pt_wins
    ⟨[("Modality", "OT"), ("KVP", "120"),
      ("RadiopharmaceuticalInformationSequence", "present")]⟩
    "OT" (by decide) (by decide) (by decide) (by decide)

/-! ### Claim C4 -/

/-- C4 counterexample: the substring test is case sensitive, so an address
reading `"MISSISSAUGA"` (upper case) is left untouched and unlogged,
against the claim's "any casing". -/
theorem c4_counterexample_uppercase_not_cleared :
    fix_incorrect_address ⟨[("InstitutionAddress", "MISSISSAUGA")]⟩ =
      (some ⟨[("InstitutionAddress", "MISSISSAUGA")]⟩, []) ∧
    ("MISSISSAUGA" : String) ≠ "" := by
  constructor <;> decide

/-- C4 amended: the address is blanked (and the old value logged) exactly
when it contains the case-sensitive substring `Mississauga` at any
position; otherwise (including the absent-field case) the dataset and log
are untouched.  The rule never discards. -/
theorem c4_address_cleanup_case_sensitive (d : Dataset) :
    ((fix_incorrect_address d).1.isSome = true) ∧
    (d.get "InstitutionAddress" = none →
      fix_incorrect_address d = (some d, [])) ∧
    (∀ addr, d.get "InstitutionAddress" = some addr →
      (containsSub addr "Mississauga" = true →
        fix_incorrect_address d =
          (some (d.set "InstitutionAddress" ""), [addressMessage addr]) ∧
        (d.set "InstitutionAddress" "").get "InstitutionAddress" = some "") ∧
      (containsSub addr "Mississauga" = false →
        fix_incorrect_address d = (some d, []))) := by
  refine ⟨?_, ?_, ?_⟩
  · unfold fix_incorrect_address
    rcases h : d.get "InstitutionAddress" with _ | addr
    · simp
    · by_cases hc : containsSub addr "Mississauga" <;> simp [hc]
  · intro h
    simp [fix_incorrect_address, h]
  · intro addr h
    constructor
    · intro hc
      constructor
      · simp [fix_incorrect_address, h, hc]
      · simp [Dataset.get_set, h]
    · intro hc
      simp [fix_incorrect_address, h, hc]

/-- Instance of `c4_address_cleanup_case_sensitive` on a concrete dataset
containing `Mississauga` in its address. -/
theorem c4_address_cleanup_case_sensitive_witness :
    fix_incorrect_address ⟨[("InstitutionAddress", "12 Mississauga Rd")]⟩ =
      (some (Dataset.set ⟨[("InstitutionAddress", "12 Mississauga Rd")]⟩
        "InstitutionAddress" ""), [addressMessage "12 Mississauga Rd"]) :=
  (((c4_address_cleanup_case_sensitive
      ⟨[("InstitutionAddress", "12 Mississauga Rd")]⟩).2.2
    "12 Mississauga Rd" (by decide)).1 (by decide)).1

/-! ### Claim C5 -/

/-- C5 counterexample: with recursion disabled the scan pattern is `*.*`,
so a top-level file named `README` (no period) is never checked — no
`Checking file` message, no loader call — against the claim's "every
top-level file of the root"; moreover, for a file whose own name starts
with `Checking file`, the loader's skip message also begins with the
literal prefix, so two messages with the prefix appear for one file. -/
theorem c5_counterexample_dotless_file_skipped :
    scanOne false ⟨["README"], true, .ok ⟨[("Modality", "CT")]⟩⟩ =
      .ok ⟨[], [], []⟩ ∧
    (match scanOne true ⟨["Checking file x.dcm"], true, .invalidDicom⟩ with
      | .ok step => step.log.countP (fun m => strStartsWith m "Checking file")
      | .error _ => 0) = 2 := by
  constructor <;> rfl

/-- C5 amended: every file in the scanned scope — any file at depth ≥ 1
when recursion is enabled, a top-level file whose name contains a period
when recursion is disabled — yields exactly one log message equal to
`Checking file ` followed by the file's name, and exactly one loader call
on that file; directories and out-of-scope entries produce no message and
no loader call. -/
theorem c5_scanner_scope (includeSub : Bool) (e : Entry) :
    (e.isFile = true → globMatches includeSub e.relPath = true →
      ∀ step, scanOne includeSub e = .ok step →
        step.log.countP (fun m => m = "Checking file " ++ e.name) = 1 ∧
        step.loaderCalls = [e.name]) ∧
    (e.isFile = false → scanOne includeSub e = .ok ⟨[], [], []⟩) ∧
    (globMatches includeSub e.relPath = false →
      scanOne includeSub e = .ok ⟨[], [], []⟩) := by
  refine ⟨?_, ?_, ?_⟩
  · intro hfile hglob step hstep
    have hne : (e.name ++ " did not contain valid DICOM data.  Skipped.") ≠
        ("Checking file " ++ e.name) := by
      intro hEq
      have hlen := congrArg String.length hEq
      rw [String.length_append, String.length_append] at hlen
      have h45 : (" did not contain valid DICOM data.  Skipped.").length =
          ("Checking file ").length := by omega
      exact absurd h45 (by decide)
    rcases hload : e.load with d | _ | m
    · simp only [scanOne, hglob, hfile, Bool.and_self, if_true, load_header,
        hload] at hstep
      by_cases ht : d.truthy <;> simp [ht] at hstep <;> subst hstep <;>
        simp [List.countP_cons]
    · simp only [scanOne, hglob, hfile, Bool.and_self, if_true, load_header,
        hload] at hstep
      simp at hstep
      subst hstep
      simp [List.countP_cons, hne]
    · simp [scanOne, hglob, hfile, load_header, hload] at hstep
  · intro hfile
    simp [scanOne, hfile]
  · intro hglob
    simp [scanOne, hglob]

/-- Instance of `c5_scanner_scope` on a concrete in-scope file. -/
theorem c5_scanner_scope_witness :
    ((⟨[⟨[("Modality", "CT")]⟩], ["Checking file a.dcm"], ["a.dcm"]⟩ :
        ScanStep).log.countP
      (fun m => m = "Checking file " ++
        (⟨["a.dcm"], true, .ok ⟨[("Modality", "CT")]⟩⟩ : Entry).name) = 1) ∧
    ((⟨[⟨[("Modality", "CT")]⟩], ["Checking file a.dcm"], ["a.dcm"]⟩ :
        ScanStep).loaderCalls =
      [(⟨["a.dcm"], true, .ok ⟨[("Modality", "CT")]⟩⟩ : Entry).name]) :=
  (c5_scanner_scope true ⟨["a.dcm"], true, .ok ⟨[("Modality", "CT")]⟩⟩).1
    rfl (by decide) _ rfl

/-! ### Claim C6 -/

/-- C6: the loader turns `InvalidDicomError` into exactly one skip message
naming the file plus the explicit no-dataset result, without raising,
while any other I/O failure propagates as an error and yields no
no-dataset result. -/
theorem c6_load_header_error_channels (fileName errMsg : String) :
    load_header fileName .invalidDicom =
      .ok (none, [fileName ++ " did not contain valid DICOM data.  Skipped."]) ∧
    load_header fileName (.ioError errMsg) = .error (.ioError errMsg) :=
  ⟨rfl, rfl⟩

/-! ### Claim C7 -/

/-- C7: for each of the two target fields, `fix_invalid_characters` maps
the field's value to the empty string exactly when it is present and
starts with `/` (otherwise the value is unchanged, including the absent
case), emits the log line naming the field exactly in the repaired case,
and always returns the dataset (never the discard signal). -/
theorem c7_invalid_char_iff (d : Dataset) (f : String)
    (hf : f = "BodyPartExamined" ∨ f = "OtherPatientIDs") :
    (∃ d', (fix_invalid_characters d).1 = some d' ∧
      d'.get f = (d.get f).map (fun v => if strStartsWith v "/" then "" else v)) ∧
    (invalidCharMessage f ∈ (fix_invalid_characters d).2 ↔
      ∃ v, d.get f = some v ∧ strStartsWith v "/" = true) := by
  have hmsg : invalidCharMessage "BodyPartExamined" ≠
      invalidCharMessage "OtherPatientIDs" := by decide
  have hBO : ("OtherPatientIDs" : String) ≠ "BodyPartExamined" := by decide
  have hOB : ("BodyPartExamined" : String) ≠ "OtherPatientIDs" := by decide
  constructor
  · refine ⟨(fixOneElement (fixOneElement d "BodyPartExamined").1
      "OtherPatientIDs").1, rfl, ?_⟩
    rcases hf with rfl | rfl
    · rw [fixOneElement_get_ne _ _ _ hOB, fixOneElement_get_self]
    · rw [fixOneElement_get_self, fixOneElement_get_ne _ _ _ hBO]
  · show invalidCharMessage f ∈
      (fixOneElement d "BodyPartExamined").2 ++
        (fixOneElement (fixOneElement d "BodyPartExamined").1
          "OtherPatientIDs").2 ↔ _
    rw [fixOneElement_msgs, fixOneElement_msgs,
      fixOneElement_get_ne _ _ _ hBO]
    rcases hf with rfl | rfl
    · rcases h1 : d.get "BodyPartExamined" with _ | v <;>
        rcases h2 : d.get "OtherPatientIDs" with _ | w <;>
          simp [h1, h2, hmsg]
    · rcases h1 : d.get "BodyPartExamined" with _ | v <;>
        rcases h2 : d.get "OtherPatientIDs" with _ | w <;>
          simp [h1, h2, hmsg.symm]

/-- Instance of `c7_invalid_char_iff` on a concrete dataset whose
body-part value starts with `/`. -/
theorem c7_invalid_char_iff_witness :
    (∃ d', (fix_invalid_characters
        ⟨[("BodyPartExamined", "/x"), ("OtherPatientIDs", "ok")]⟩).1 = some d' ∧
      d'.get "BodyPartExamined" =
        (Dataset.get ⟨[("BodyPartExamined", "/x"), ("OtherPatientIDs", "ok")]⟩
          "BodyPartExamined").map
          (fun v => if strStartsWith v "/" then "" else v)) ∧
    (invalidCharMessage "BodyPartExamined" ∈
      (fix_invalid_characters
        ⟨[("BodyPartExamined", "/x"), ("OtherPatientIDs", "ok")]⟩).2 ↔
      ∃ v, Dataset.get ⟨[("BodyPartExamined", "/x"), ("OtherPatientIDs", "ok")]⟩
          "BodyPartExamined" = some v ∧ strStartsWith v "/" = true) :=
  c7_invalid_char_iff ⟨[("BodyPartExamined", "/x"), ("OtherPatientIDs", "ok")]⟩
    "BodyPartExamined" (Or.inl rfl)

/-! ### Claim C8 -/

/-- C8: the pipeline is a deterministic function of the input directory, so
a second run performs exactly the same sequence of writes; replaying a
write sequence over the output directory it already produced leaves every
filename with the same content (the last write to each name wins), so no
duplicate or differing output appears. -/
theorem c8_rerun_overwrites_identically (entries : List Entry)
    (log : List String) (ws : List SaveEvent)
    (h : perform_repairs entries repair_methods = .ok (log, ws))
    (σ : Store) (n : String) :
    applyWrites ws (applyWrites ws σ) n = applyWrites ws σ n := by
  rcases hw : lastWrite ws n with _ | c <;>
    simp only [applyWrites_eq_lastWrite ws (applyWrites ws σ) n,
      applyWrites_eq_lastWrite ws σ n, hw]

/-- Instance of `c8_rerun_overwrites_identically` on a one-file input
directory, for the filename the run writes, starting from an empty output
directory. -/
theorem c8_rerun_overwrites_identically_witness :
    applyWrites
        [⟨"CT9.dcm", ⟨[("Modality", "CT"), ("SOPInstanceUID", "9"), ("KVP", "120")]⟩⟩,
         ⟨"CT9.dcm", ⟨[("Modality", "CT"), ("SOPInstanceUID", "9"), ("KVP", "120")]⟩⟩,
         ⟨"CT9.dcm", ⟨[("Modality", "CT"), ("SOPInstanceUID", "9"), ("KVP", "120")]⟩⟩]
        (applyWrites
          [⟨"CT9.dcm", ⟨[("Modality", "CT"), ("SOPInstanceUID", "9"), ("KVP", "120")]⟩⟩,
           ⟨"CT9.dcm", ⟨[("Modality", "CT"), ("SOPInstanceUID", "9"), ("KVP", "120")]⟩⟩,
           ⟨"CT9.dcm", ⟨[("Modality", "CT"), ("SOPInstanceUID", "9"), ("KVP", "120")]⟩⟩]
          (fun _ => none)) "CT9.dcm" =
      applyWrites
        [⟨"CT9.dcm", ⟨[("Modality", "CT"), ("SOPInstanceUID", "9"), ("KVP", "120")]⟩⟩,
         ⟨"CT9.dcm", ⟨[("Modality", "CT"), ("SOPInstanceUID", "9"), ("KVP", "120")]⟩⟩,
         ⟨"CT9.dcm", ⟨[("Modality", "CT"), ("SOPInstanceUID", "9"), ("KVP", "120")]⟩⟩]
        (fun _ => none) "CT9.dcm" :=
  c8_rerun_overwrites_identically
    [⟨["a.dcm"], true,
      .ok ⟨[("Modality", "CT"), ("SOPInstanceUID", "9"), ("KVP", "120")]⟩⟩]
    ["Checking file a.dcm"] _ (by rfl) (fun _ => none) "CT9.dcm"

/-! ### Claim C9 -/

/-- C9: each repair rule leaves every field other than its own fixed
targets unchanged — `fix_invalid_characters` writes only
`BodyPartExamined` and `OtherPatientIDs`, `fix_incorrect_modality` only
`Modality`, `fix_incorrect_address` only `InstitutionAddress`. -/
theorem c9_frame (d : Dataset) (f : String) :
    ((f ≠ "BodyPartExamined" ∧ f ≠ "OtherPatientIDs") →
      ∀ d', (fix_invalid_characters d).1 = some d' → d'.get f = d.get f) ∧
    (f ≠ "Modality" →
      ∀ d', (fix_incorrect_modality d).1 = some d' → d'.get f = d.get f) ∧
    (f ≠ "InstitutionAddress" →
      ∀ d', (fix_incorrect_address d).1 = some d' → d'.get f = d.get f) := by
  refine ⟨?_, ?_, ?_⟩
  · rintro ⟨h1, h2⟩ d' hd'
    simp only [fix_invalid_characters, Option.some.injEq] at hd'
    subst hd'
    rw [fixOneElement_get_ne _ _ _ h2, fixOneElement_get_ne _ _ _ h1]
  · intro hf d' hd'
    rcases hm : d.get "Modality" with _ | m
    · simp [fix_incorrect_modality, hm] at hd'
    · simp only [fix_incorrect_modality, hm, Option.some.injEq] at hd'
      split_ifs at hd' <;> subst hd' <;> simp [Dataset.get_set, hf]
  · intro hf d' hd'
    rcases ha : d.get "InstitutionAddress" with _ | addr
    · simp only [fix_incorrect_address, ha, Option.some.injEq] at hd'
      subst hd'
      rfl
    · simp only [fix_incorrect_address, ha] at hd'
      split_ifs at hd' <;> simp only [Option.some.injEq] at hd' <;>
        subst hd' <;> simp [Dataset.get_set, hf]

/-- Instance of `c9_frame`: repairing the modality of a concrete dataset
leaves its `PatientName` element untouched. -/
theorem c9_frame_witness :
    (Dataset.set ⟨[("Modality", "OT"), ("KVP", "1"), ("PatientName", "X")]⟩
        "Modality" "CT").get "PatientName" =
      Dataset.get ⟨[("Modality", "OT"), ("KVP", "1"), ("PatientName", "X")]⟩
        "PatientName" :=
  (c9_frame ⟨[("Modality", "OT"), ("KVP", "1"), ("PatientName", "X")]⟩
    "PatientName").2.1 (by decide) _ rfl

/-! ### Claim C10 -/

/-- C10: a file that decodes to a dataset with zero data elements is
checked (one `Checking file` line, one loader call) but yields nothing and
produces no skip message: the yield guard is the dataset's truthiness, so
an empty-but-valid dataset is dropped exactly like a decode failure but
without the failure's log line. -/
theorem c10_empty_dataset_silently_dropped (includeSub : Bool) (e : Entry)
    (d : Dataset)
    (hfile : e.isFile = true)
    (hscope : globMatches includeSub e.relPath = true)
    (hload : e.load = .ok d)
    (hempty : d.elements = []) :
    scanOne includeSub e = .ok ⟨[], ["Checking file " ++ e.name], [e.name]⟩ := by
  simp [scanOne, hfile, hscope, load_header, hload, Dataset.truthy, hempty]

/-- Instance of `c10_empty_dataset_silently_dropped` on a concrete
empty-but-valid file in a subdirectory. -/
theorem c10_empty_dataset_silently_dropped_witness :
    scanOne true ⟨["sub", "a.dcm"], true, .ok ⟨[]⟩⟩ =
      .ok ⟨[], ["Checking file " ++
        (⟨["sub", "a.dcm"], true, .ok ⟨[]⟩⟩ : Entry).name],
        [(⟨["sub", "a.dcm"], true, .ok ⟨[]⟩⟩ : Entry).name]⟩ :=
  c10_empty_dataset_silently_dropped true ⟨["sub", "a.dcm"], true, .ok ⟨[]⟩⟩
    ⟨[]⟩ rfl (by decide) rfl rfl
